import Mathlib

/-!
Shallow embedding of src/USBPcapDriver/USBPcapHelperFunctions.c.

The driver code talks to the PnP / USB hub stack through a handful of
external kernel primitives (IoBuildSynchronousFsdRequest,
IoBuildDeviceIoControlRequest, IoCallDriver, KeWaitForSingleObject,
IoGetDeviceProperty, ExAllocatePoolWithTag).  Each helper function is
embedded as a pure function of an explicit environment record that carries
the outcome every such external call would produce during one invocation
(allocation success, dispatch status, completion status, buffer contents).
The control flow, branch conditions and data flow of the C functions are
translated statement by statement.
-/

set_option autoImplicit false

namespace USBPcap

/-! NTSTATUS values used by the source, as 32-bit unsigned codes. -/

def STATUS_SUCCESS : Nat := 0
def STATUS_PENDING : Nat := 0x103
def STATUS_BUFFER_TOO_SMALL : Nat := 0xC0000023
def STATUS_INSUFFICIENT_RESOURCES : Nat := 0xC000009A
def STATUS_INVALID_DEVICE_REQUEST : Nat := 0xC0000010
def STATUS_INVALID_PARAMETER : Nat := 0xC000000D
def STATUS_NOT_SUPPORTED : Nat := 0xC00000BB

/-- NT_SUCCESS(s): the two top severity bits are 00 or 01, i.e. the signed
32-bit value is nonnegative. -/
def NT_SUCCESS (s : Nat) : Bool := s < 0x80000000

/-- The status each IoCallDriver round-trip ends with: IoCallDriver's own
return value, unless that was STATUS_PENDING, in which case the function
waits on the event and reads the completion status from the status block. -/
def effectiveStatus (callStatus completionStatus : Nat) : Nat :=
  if callStatus = STATUS_PENDING then completionStatus else callStatus

/-!
External-call environment for USBPcapGetTargetDevicePdo (lines 27-83).
irpAlloc is the outcome of IoBuildSynchronousFsdRequest; callStatus the
status IoCallDriver returns; completionStatus the value found in
ioStatusBlock.Status after the event is signaled (the bus driver wrote it,
or it is the STATUS_NOT_SUPPORTED the function preset); relations the
Objects array of the DEVICE_RELATIONS found in ioStatusBlock.Information
on success.  PDOs are plain Nat handles.
-/

structure PdoQueryEnv where
  irpAlloc : Bool
  callStatus : Nat
  completionStatus : Nat
  relations : List Nat

/-- USBPcapGetTargetDevicePdo (lines 27-83): build the PnP
TargetDeviceRelation request, dispatch it, wait if pending, and on success
take Objects[0] out of the returned relation list (the list container
itself is freed).  Returns the status and the acquired PDO, if any. -/
def USBPcapGetTargetDevicePdo (env : PdoQueryEnv) : Nat × Option Nat :=
  if env.irpAlloc = false then (STATUS_INSUFFICIENT_RESOURCES, none)
  else
    let status := effectiveStatus env.callStatus env.completionStatus
    if NT_SUCCESS status then (status, env.relations.head?) else (status, none)

/-!
External-call environment for USBPcapGetTargetDevicePort (lines 93-164).
phase1Status is what the zero-size IoGetDeviceProperty probe returns
(length is the required size it reports); allocOk the outcome of
ExAllocatePoolWithTag; phase2Status the status of the second
IoGetDeviceProperty call; strChars the NUL-terminated location text the
second call deposits in the buffer (listed without its terminator); junk
the memory contents found past the terminator, since the scanning loop of
the source can run beyond it.
-/

structure PortQueryEnv where
  phase1Status : Nat
  length : Nat
  allocOk : Bool
  phase2Status : Nat
  strChars : List Nat
  junk : Nat → Nat

/-- The WCHAR the scanning loop reads at offset i of the filled buffer:
the location text, then its NUL terminator, then whatever memory follows. -/
def bufOf (chars : List Nat) (junk : Nat → Nat) : Nat → Nat
  | i =>
    match chars, i with
    | [], 0 => 0
    | [], n + 1 => junk n
    | c :: _, 0 => c
    | _ :: rest, n + 1 => bufOf rest junk n

/-- The scanning loop of lines 152-155: starting at idx with the given
fuel (the declared length bound of the loop), return the index at which
the loop stops, namely the first offset holding a hash (35) or the bound
itself.  The source checks the character before the bound, so the hash
test comes first here as well. -/
def hashStopAux (buf : Nat → Nat) : Nat → Nat → Nat
  | idx, 0 => idx
  | idx, fuel + 1 => if buf idx = 35 then idx else hashStopAux buf (idx + 1) fuel

/-- The blanking effect of lines 152-156 on the character list: every
position up to and including the stop index becomes a space (32). -/
def blankChars (stop : Nat) : List Nat → Nat → List Nat
  | [], _ => []
  | c :: rest, i => (if i ≤ stop then 32 else c) :: blankChars stop rest (i + 1)

/-- Digit value of a WCHAR, as RtlUnicodeStringToInteger computes it:
decimal digits, then upper and lower case hex letters. -/
def digitVal (c : Nat) : Option Nat :=
  if 48 ≤ c ∧ c ≤ 57 then some (c - 48)
  else if 65 ≤ c ∧ c ≤ 70 then some (c - 55)
  else if 97 ≤ c ∧ c ≤ 102 then some (c - 87)
  else none

/-- Leading characters with code at most 32 (space and below) are skipped
by RtlUnicodeStringToInteger. -/
def rtlSkipWhite : List Nat → List Nat
  | [] => []
  | c :: rest => if c ≤ 32 then rtlSkipWhite rest else c :: rest

/-- Optional sign character: a plus (43) is consumed, a minus (45) is
consumed and remembered, anything else is left in place. -/
def rtlAfterSign (l : List Nat) : Bool × List Nat :=
  match l with
  | [] => (false, [])
  | c :: rest =>
    if c = 43 then (false, rest)
    else if c = 45 then (true, rest)
    else (false, c :: rest)

/-- Base selection for Base argument 0: a leading 0b, 0o or 0x picks base
2, 8 or 16 and is consumed, otherwise base 10 with nothing consumed. -/
def rtlBase0 (l : List Nat) : Nat × List Nat :=
  match l with
  | c1 :: c2 :: rest =>
    if c1 = 48 ∧ c2 = 98 then (2, rest)
    else if c1 = 48 ∧ c2 = 111 then (8, rest)
    else if c1 = 48 ∧ c2 = 120 then (16, rest)
    else (10, c1 :: c2 :: rest)
  | l => (10, l)

/-- The accumulation loop: consume characters while they are digits of the
base, accumulating into a 32-bit unsigned running total; stop at the first
non-digit. -/
def rtlDigits (base : Nat) : Nat → List Nat → Nat
  | acc, [] => acc
  | acc, c :: rest =>
    match digitVal c with
    | none => acc
    | some d =>
      if d < base then rtlDigits base ((acc * base + d) % 4294967296) rest else acc

/-- Modelled from the documented NT semantics of RtlUnicodeStringToInteger
(an OS routine external to this repository, called at line 158): skip
blanks, take an optional sign, resolve the base (the source passes Base 0),
then accumulate the leading digit run; the status is STATUS_SUCCESS even
when the digit run is empty, in which case the value is 0; only an invalid
explicit base yields STATUS_INVALID_PARAMETER. -/
def rtlUnicodeStringToInteger (chars : List Nat) (base : Nat) : Nat × Nat :=
  let afterWhite := rtlSkipWhite chars
  let signed := rtlAfterSign afterWhite
  let based := if base = 0 then rtlBase0 signed.2 else (base, signed.2)
  if based.1 = 2 ∨ based.1 = 8 ∨ based.1 = 10 ∨ based.1 = 16 then
    let total := rtlDigits based.1 0 based.2
    (STATUS_SUCCESS,
     if signed.1 then (4294967296 - total) % 4294967296 else total % 4294967296)
  else (STATUS_INVALID_PARAMETER, 0)

/-- Outcome of USBPcapGetTargetDevicePort: either the function returns a
status (with the port value, when the out parameter was written), or the
execution faults because it dereferenced the absent buffer. -/
inductive PortOutcome where
  | ret (status : Nat) (port : Option Nat)
  | crash
deriving DecidableEq

/-- USBPcapGetTargetDevicePort (lines 93-164).  First a zero-size
IoGetDeviceProperty probe: any outcome other than STATUS_BUFFER_TOO_SMALL
returns immediately (a failing status unchanged, an unexpected success as
STATUS_INVALID_DEVICE_REQUEST).  Then ExAllocatePoolWithTag with no check
of its result: if the allocation failed, the NULL buffer is passed to the
second IoGetDeviceProperty call (which writes through it) and every
continuation afterwards frees or indexes it, so the execution faults.
Otherwise, on second-phase failure the status is returned; on success
RtlInitUnicodeString captures the text up to its terminator, the loop of
lines 152-156 blanks everything up to and including the first hash found
within the declared length, and RtlUnicodeStringToInteger parses what the
string now holds. -/
def USBPcapGetTargetDevicePort (env : PortQueryEnv) : PortOutcome :=
  if env.phase1Status ≠ STATUS_BUFFER_TOO_SMALL then
    if NT_SUCCESS env.phase1Status = false then PortOutcome.ret env.phase1Status none
    else PortOutcome.ret STATUS_INVALID_DEVICE_REQUEST none
  else if env.allocOk = false then PortOutcome.crash
  else if NT_SUCCESS env.phase2Status = false then PortOutcome.ret env.phase2Status none
  else
    let str := env.strChars.takeWhile (fun c => c != 0)
    let stop := hashStopAux (bufOf env.strChars env.junk) 0 env.length
    let blanked := blankChars stop str 0
    let parsed := rtlUnicodeStringToInteger blanked 0
    PortOutcome.ret parsed.1 (some parsed.2)

/-! Node information query, USBPcapGetNumberOfPorts (lines 167-225). -/

/-- The NodeType the device reports in the USB_NODE_INFORMATION buffer. -/
inductive UsbNodeType where
  | usbHub
  | usbMIParent
deriving DecidableEq

/--
External-call environment for USBPcapGetNumberOfPorts: irpAlloc is the
outcome of IoBuildDeviceIoControlRequest; callStatus and completionStatus
as before; nodeType, hubPorts (HubDescriptor.bNumberOfPorts) and
interfaces (MiParentInformation.NumberOfInterfaces) the contents of the
USB_NODE_INFORMATION buffer after the request completed.
-/
structure NodeInfoEnv where
  irpAlloc : Bool
  callStatus : Nat
  completionStatus : Nat
  nodeType : UsbNodeType
  hubPorts : Nat
  interfaces : Nat

/-- USBPcapGetNumberOfPorts (lines 167-225): dispatch
IOCTL_USB_GET_NODE_INFORMATION, wait if pending; on failure return the
status with the out parameter untouched; on success return the hub
descriptor port count when the node reports UsbHub, the composite parent
interface count otherwise. -/
def USBPcapGetNumberOfPorts (env : NodeInfoEnv) : Nat × Option Nat :=
  if env.irpAlloc = false then (STATUS_INSUFFICIENT_RESOURCES, none)
  else
    let status := effectiveStatus env.callStatus env.completionStatus
    if NT_SUCCESS status = false then (status, none)
    else
      (status, some (match env.nodeType with
        | UsbNodeType.usbHub => env.hubPorts
        | UsbNodeType.usbMIParent => env.interfaces))

/-! Connection information query, USBPcapGetNodeInformation (lines 227-285). -/

/-- The USB_NODE_CONNECTION_INFORMATION record the caller passes in and
gets back (the fields the source reads and writes). -/
structure USB_NODE_CONNECTION_INFORMATION where
  connectionIndex : Nat
  deviceAddress : Nat
  deviceIsHub : Bool
  connectionStatus : Nat
deriving DecidableEq

/--
External-call environment for USBPcapGetNodeInformation: irpAlloc,
callStatus, completionStatus as before; the per-port functions give the
connection data the hub deposits in the buffer when the request for that
port index succeeds.  On a failed request the lower layer writes nothing
back into the caller record.
-/
structure ConnInfoEnv where
  irpAlloc : Bool
  callStatus : Nat
  completionStatus : Nat
  deviceAddress : Nat → Nat
  deviceIsHub : Nat → Bool
  connectionStatus : Nat → Nat

/-- USBPcapGetNodeInformation (lines 227-285): line 240 stores the port
into info->ConnectionIndex before anything can fail; then the IOCTL is
built (allocation failure returns STATUS_INSUFFICIENT_RESOURCES),
dispatched and waited for; on success the buffer holds the hub's data for
that port, on failure the status is returned with only the index field
changed. -/
def USBPcapGetNodeInformation (env : ConnInfoEnv) (port : Nat)
    (info : USB_NODE_CONNECTION_INFORMATION) :
    Nat × USB_NODE_CONNECTION_INFORMATION :=
  let info1 := { info with connectionIndex := port }
  if env.irpAlloc = false then (STATUS_INSUFFICIENT_RESOURCES, info1)
  else
    let status := effectiveStatus env.callStatus env.completionStatus
    if NT_SUCCESS status = false then (status, info1)
    else
      (status,
       { connectionIndex := port,
         deviceAddress := env.deviceAddress port,
         deviceIsHub := env.deviceIsHub port,
         connectionStatus := env.connectionStatus port })

/-! The composed resolver, USBPcapGetDeviceUSBAddress (lines 316-361). -/

/--
Environment of one USBPcapGetDeviceUSBAddress call: the environments of the
three external queries it performs, plus the uninitialized stack contents
of its local USB_NODE_CONNECTION_INFORMATION variable.
-/
structure ResolveEnv where
  pdoEnv : PdoQueryEnv
  portEnv : PortQueryEnv
  connEnv : ConnInfoEnv
  initInfo : USB_NODE_CONNECTION_INFORMATION

/--
Observable outcome of one USBPcapGetDeviceUSBAddress call: the returned
status, the address out parameter (written only on overall success),
whether a PDO reference was acquired (the PDO query succeeded), how many
times ObDereferenceObject ran on it, whether execution faulted inside the
port query instead of returning, and the port index handed to
USBPcapGetNodeInformation when that call was reached.  When crashed is
true the call never returned and status is meaningless.
-/
structure ResolveTrace where
  status : Nat
  address : Option Nat
  acquired : Bool
  derefs : Nat
  crashed : Bool
  queriedPort : Option Nat
deriving DecidableEq

/-- USBPcapGetDeviceUSBAddress (lines 316-361): acquire the device PDO
(abort on failure), parse its location text into a port, dereference the
PDO exactly once at line 340 right after that call returns, abort on parse
failure, query the hub for that port's connection information, and on
success copy DeviceAddress to the out parameter. -/
def USBPcapGetDeviceUSBAddress (env : ResolveEnv) : ResolveTrace :=
  let r1 := USBPcapGetTargetDevicePdo env.pdoEnv
  if NT_SUCCESS r1.1 = false then
    { status := r1.1, address := none, acquired := false, derefs := 0,
      crashed := false, queriedPort := none }
  else
    match USBPcapGetTargetDevicePort env.portEnv with
    | PortOutcome.crash =>
      { status := STATUS_SUCCESS, address := none, acquired := true, derefs := 0,
        crashed := true, queriedPort := none }
    | PortOutcome.ret s2 parsedPort =>
      if NT_SUCCESS s2 = false then
        { status := s2, address := none, acquired := true, derefs := 1,
          crashed := false, queriedPort := none }
      else
        let port := parsedPort.getD 0
        let r3 := USBPcapGetNodeInformation env.connEnv port env.initInfo
        if NT_SUCCESS r3.1 = true then
          { status := r3.1, address := some r3.2.deviceAddress, acquired := true,
            derefs := 1, crashed := false, queriedPort := some port }
        else
          { status := r3.1, address := none, acquired := true, derefs := 1,
            crashed := false, queriedPort := some port }

/-! Character codes of the location strings used by the spec's examples. -/

/-- Codes of the six characters the convention places before the digit run. -/
def portHdrChars : List Nat := [80, 111, 114, 116, 95, 35]

/-- Codes of the separator and hub part that follow the digit run. -/
def dotHubChars : List Nat := [46, 72, 117, 98, 95, 35]

/-- One step of the ULONG decimal accumulation of RtlUnicodeStringToInteger. -/
def decimalAccum (a c : Nat) : Nat := (a * 10 + (c - 48)) % 4294967296

/-! Helper lemmas about the embedded loops. -/

theorem hashStopAux_no_hash (buf : Nat → Nat) :
    ∀ (fuel idx : Nat), (∀ i, idx ≤ i → i < idx + fuel → buf i ≠ 35) →
    hashStopAux buf idx fuel = idx + fuel := by
  intro fuel
  induction fuel with
  | zero => intro idx _; simp [hashStopAux]
  | succ n ih =>
    intro idx h
    have hne : buf idx ≠ 35 := h idx (Nat.le_refl idx) (by omega)
    have := ih (idx + 1) (fun i h1 h2 => h i (by omega) (by omega))
    simp only [hashStopAux, if_neg hne, this]
    omega

theorem hashStopAux_finds (buf : Nat → Nat) :
    ∀ (fuel idx p : Nat), idx ≤ p → p < idx + fuel → buf p = 35 →
    (∀ i, idx ≤ i → i < p → buf i ≠ 35) →
    hashStopAux buf idx fuel = p := by
  intro fuel
  induction fuel with
  | zero => intro idx p h1 h2 _ _; omega
  | succ n ih =>
    intro idx p h1 h2 hp hno
    by_cases hip : idx = p
    · subst hip; simp [hashStopAux, hp]
    · have hne : buf idx ≠ 35 := hno idx (Nat.le_refl idx) (by omega)
      have := ih (idx + 1) p (by omega) (by omega) hp
        (fun i hi1 hi2 => hno i (by omega) hi2)
      simp only [hashStopAux, if_neg hne, this]

theorem blankChars_append (stop : Nat) :
    ∀ (l1 l2 : List Nat) (i : Nat),
    blankChars stop (l1 ++ l2) i = blankChars stop l1 i ++ blankChars stop l2 (i + l1.length) := by
  intro l1
  induction l1 with
  | nil => intro l2 i; simp [blankChars]
  | cons c rest ih =>
    intro l2 i
    simp only [List.cons_append, blankChars, List.length_cons]
    rw [show (rest.append l2) = rest ++ l2 from rfl, ih l2 (i + 1),
      show i + (rest.length + 1) = i + 1 + rest.length by omega]

theorem blankChars_all (stop : Nat) :
    ∀ (l : List Nat) (i : Nat), i + l.length ≤ stop + 1 →
    blankChars stop l i = List.replicate l.length 32 := by
  intro l
  induction l with
  | nil => intro i _; simp [blankChars]
  | cons c rest ih =>
    intro i h
    simp only [List.length_cons] at h
    have hle : i ≤ stop := by omega
    simp only [blankChars, if_pos hle, List.length_cons, List.replicate_succ,
      ih (i + 1) (by omega)]

theorem blankChars_past (stop : Nat) :
    ∀ (l : List Nat) (i : Nat), stop < i → blankChars stop l i = l := by
  intro l
  induction l with
  | nil => intro i _; simp [blankChars]
  | cons c rest ih =>
    intro i h
    have hgt : ¬ i ≤ stop := by omega
    simp only [blankChars, if_neg hgt, ih (i + 1) (by omega)]

theorem takeWhileLength_le (p : Nat → Bool) :
    ∀ (l : List Nat), (l.takeWhile p).length ≤ l.length := by
  intro l
  induction l with
  | nil => simp
  | cons c rest ih =>
    by_cases h : p c
    · simp [List.takeWhile_cons, h]; omega
    · simp [List.takeWhile_cons, h]

theorem rtlSkipWhite_replicate (n : Nat) (l : List Nat) :
    rtlSkipWhite (List.replicate n 32 ++ l) = rtlSkipWhite l := by
  induction n with
  | zero => simp
  | succ m ih => simp [List.replicate_succ, rtlSkipWhite, ih]

theorem rtlSkipWhite_cons_gt (c : Nat) (l : List Nat) (h : 32 < c) :
    rtlSkipWhite (c :: l) = c :: l := by
  have : ¬ c ≤ 32 := by omega
  simp [rtlSkipWhite, this]

theorem digitVal_decimal (c : Nat) (h1 : 48 ≤ c) (h2 : c ≤ 57) :
    digitVal c = some (c - 48) := by
  simp [digitVal, h1, h2]

theorem rtlDigits_run :
    ∀ (xs : List Nat) (acc c : Nat) (rest : List Nat),
    (∀ x ∈ xs, 48 ≤ x ∧ x ≤ 57) → digitVal c = none →
    rtlDigits 10 acc (xs ++ c :: rest) = xs.foldl decimalAccum acc := by
  intro xs
  induction xs with
  | nil =>
    intro acc c rest _ hc
    simp [rtlDigits, hc]
  | cons z zs ih =>
    intro acc c rest hxs hc
    have hz : 48 ≤ z ∧ z ≤ 57 := hxs z (List.mem_cons_self z zs)
    have hd : digitVal z = some (z - 48) := digitVal_decimal z hz.1 hz.2
    have hlt : z - 48 < 10 := by omega
    simp only [List.cons_append, rtlDigits, hd, if_pos hlt, List.foldl_cons]
    exact ih ((acc * 10 + (z - 48)) % 4294967296) c rest
      (fun x hx => hxs x (List.mem_cons_of_mem z hx)) hc

theorem foldl_decimalAccum_lt :
    ∀ (xs : List Nat) (acc : Nat), acc < 4294967296 →
    xs.foldl decimalAccum acc < 4294967296 := by
  intro xs
  induction xs with
  | nil => intro acc h; simpa using h
  | cons z zs ih =>
    intro acc _
    simp only [List.foldl_cons]
    exact ih (decimalAccum acc z) (Nat.mod_lt _ (by omega))

theorem rtl_digit_run (x : Nat) (xs : List Nat) (c : Nat) (rest : List Nat)
    (hx1 : 48 ≤ x) (hx2 : x ≤ 57) (hxs : ∀ y ∈ xs, 48 ≤ y ∧ y ≤ 57)
    (hc : digitVal c = none) (hclt : c < 98) :
    rtlUnicodeStringToInteger (x :: (xs ++ c :: rest)) 0 =
      (STATUS_SUCCESS, (x :: xs).foldl decimalAccum 0) := by
  have hskip : rtlSkipWhite (x :: (xs ++ c :: rest)) = x :: (xs ++ c :: rest) :=
    rtlSkipWhite_cons_gt _ _ (by omega)
  have hsign : rtlAfterSign (x :: (xs ++ c :: rest)) = (false, x :: (xs ++ c :: rest)) := by
    have h43 : x ≠ 43 := by omega
    have h45 : x ≠ 45 := by omega
    simp [rtlAfterSign, h43, h45]
  have hbase : rtlBase0 (x :: (xs ++ c :: rest)) = (10, x :: (xs ++ c :: rest)) := by
    cases xs with
    | nil =>
      have hb : ¬ (x = 48 ∧ c = 98) := by omega
      have ho : ¬ (x = 48 ∧ c = 111) := by omega
      have hx : ¬ (x = 48 ∧ c = 120) := by omega
      simp [rtlBase0, hb, ho, hx]
    | cons y ys =>
      have hy : 48 ≤ y ∧ y ≤ 57 := hxs y (List.mem_cons_self y ys)
      have hb : ¬ (x = 48 ∧ y = 98) := by omega
      have ho : ¬ (x = 48 ∧ y = 111) := by omega
      have hx : ¬ (x = 48 ∧ y = 120) := by omega
      simp [rtlBase0, hb, ho, hx]
  have hdig : rtlDigits 10 0 ((x :: xs) ++ c :: rest) = (x :: xs).foldl decimalAccum 0 :=
    rtlDigits_run (x :: xs) 0 c rest
      (fun y hy => by
        rcases List.mem_cons.mp hy with h | h
        · exact h ▸ ⟨hx1, hx2⟩
        · exact hxs y h) hc
  have hfold : (x :: xs).foldl decimalAccum 0 < 4294967296 :=
    foldl_decimalAccum_lt (x :: xs) 0 (by omega)
  have hfold' : List.foldl decimalAccum (decimalAccum 0 x) xs < 4294967296 := by
    simpa using hfold
  simp only [rtlUnicodeStringToInteger, hskip, hsign, hbase]
  simp only [List.cons_append] at hdig
  simp [hdig, Nat.mod_eq_of_lt hfold']

theorem rtl_all_spaces (n : Nat) :
    rtlUnicodeStringToInteger (List.replicate n 32) 0 = (STATUS_SUCCESS, 0) := by
  have hskip : rtlSkipWhite (List.replicate n 32) = [] := by
    have := rtlSkipWhite_replicate n []
    simpa using this
  simp [rtlUnicodeStringToInteger, hskip, rtlAfterSign, rtlBase0, rtlDigits]

theorem rtlBase0_valid (l : List Nat) :
    (rtlBase0 l).1 = 2 ∨ (rtlBase0 l).1 = 8 ∨ (rtlBase0 l).1 = 10 ∨ (rtlBase0 l).1 = 16 := by
  match l with
  | [] => simp [rtlBase0]
  | [c] => simp [rtlBase0]
  | c1 :: c2 :: rest =>
    simp only [rtlBase0]
    split
    · simp
    · split
      · simp
      · split <;> simp

theorem rtl_base0_status (l : List Nat) :
    (rtlUnicodeStringToInteger l 0).1 = STATUS_SUCCESS := by
  simp only [rtlUnicodeStringToInteger]
  rcases rtlBase0_valid (rtlAfterSign (rtlSkipWhite l)).2 with h | h | h | h <;>
    simp [h]

theorem port_ret_success (env : PortQueryEnv) (s : Nat) (p : Option Nat)
    (h : USBPcapGetTargetDevicePort env = PortOutcome.ret s p)
    (hs : NT_SUCCESS s = true) :
    s = STATUS_SUCCESS ∧ p = some (rtlUnicodeStringToInteger
      (blankChars (hashStopAux (bufOf env.strChars env.junk) 0 env.length)
        (env.strChars.takeWhile (fun c => c != 0)) 0) 0).2 := by
  by_cases h1 : env.phase1Status = STATUS_BUFFER_TOO_SMALL
  · by_cases h2 : env.allocOk = true
    · by_cases h3 : NT_SUCCESS env.phase2Status = true
      · simp only [USBPcapGetTargetDevicePort, h1, h2, h3] at h
        simp at h
        refine ⟨?_, ?_⟩
        · rw [← h.1, rtl_base0_status]
        · rw [← h.2]
      · simp only [USBPcapGetTargetDevicePort, h1, h2] at h
        simp [Bool.not_eq_true] at h3
        simp [h3] at h
        rw [← h.1] at hs
        rw [h3] at hs
        cases hs
    · simp only [USBPcapGetTargetDevicePort, h1] at h
      simp [Bool.not_eq_true] at h2
      simp [h2] at h
  · simp only [USBPcapGetTargetDevicePort, if_pos h1] at h
    by_cases hf : NT_SUCCESS env.phase1Status = false
    · simp [hf] at h
      rw [← h.1, hf] at hs
      cases hs
    · simp [hf] at h
      rw [← h.1] at hs
      have : NT_SUCCESS STATUS_INVALID_DEVICE_REQUEST = false := by decide
      rw [this] at hs
      cases hs

theorem conn_success_shape (env : ConnInfoEnv) (port : Nat)
    (info : USB_NODE_CONNECTION_INFORMATION)
    (h : NT_SUCCESS (USBPcapGetNodeInformation env port info).1 = true) :
    (USBPcapGetNodeInformation env port info).2 =
      { connectionIndex := port, deviceAddress := env.deviceAddress port,
        deviceIsHub := env.deviceIsHub port,
        connectionStatus := env.connectionStatus port } := by
  by_cases ha : env.irpAlloc = true
  · by_cases hs : NT_SUCCESS (effectiveStatus env.callStatus env.completionStatus) = true
    · simp [USBPcapGetNodeInformation, ha, hs]
    · simp only [Bool.not_eq_true] at hs
      simp [USBPcapGetNodeInformation, ha, hs] at h
  · simp only [Bool.not_eq_true] at ha
    simp [USBPcapGetNodeInformation, ha] at h
    have : NT_SUCCESS STATUS_INSUFFICIENT_RESOURCES = false := by decide
    rw [this] at h
    cases h

theorem rtl_replicate_prepend (n : Nat) (l : List Nat) :
    rtlUnicodeStringToInteger (List.replicate n 32 ++ l) 0 =
      rtlUnicodeStringToInteger l 0 := by
  simp only [rtlUnicodeStringToInteger, rtlSkipWhite_replicate]

/-- Core parsing fact: when the two-phase property query succeeds and the
buffer holds a text of the conventional shape, the port written is the
decimal value of the digit run after the first hash. -/
theorem port_parse_wellformed (env : PortQueryEnv) (xs ys : List Nat)
    (hstr : env.strChars = portHdrChars ++ xs ++ dotHubChars ++ ys)
    (hxs : ∀ c ∈ xs, 48 ≤ c ∧ c ≤ 57) (hxsne : xs ≠ [])
    (hys : ∀ c ∈ ys, 48 ≤ c ∧ c ≤ 57)
    (h1 : env.phase1Status = STATUS_BUFFER_TOO_SMALL)
    (h2 : env.allocOk = true)
    (h3 : NT_SUCCESS env.phase2Status = true)
    (hlen : 6 ≤ env.length) :
    USBPcapGetTargetDevicePort env =
      PortOutcome.ret STATUS_SUCCESS (some (xs.foldl decimalAccum 0)) := by
  rcases List.exists_cons_of_ne_nil hxsne with ⟨x, xs', hxx⟩
  have hx : 48 ≤ x ∧ x ≤ 57 := hxs x (hxx ▸ List.mem_cons_self x xs')
  have hxs' : ∀ c ∈ xs', 48 ≤ c ∧ c ≤ 57 :=
    fun c hc => hxs c (hxx ▸ List.mem_cons_of_mem x hc)
  have hall : ∀ c ∈ env.strChars, c ≠ 0 := by
    intro c hc
    rw [hstr] at hc
    simp only [List.append_assoc, List.mem_append] at hc
    rcases hc with h | h | h | h
    · simp [portHdrChars] at h; omega
    · have := hxs c h; omega
    · simp [dotHubChars] at h; omega
    · have := hys c h; omega
  have htake : env.strChars.takeWhile (fun c => c != 0) = env.strChars := by
    apply List.takeWhile_eq_self_iff.mpr
    intro c hc
    simpa [bne_iff_ne] using hall c hc
  have hbuf5 : bufOf env.strChars env.junk 5 = 35 := by
    rw [hstr]
    simp [portHdrChars, bufOf]
  have hlt5 : ∀ i, 0 ≤ i → i < 5 → bufOf env.strChars env.junk i ≠ 35 := by
    intro i _ hi
    rw [hstr]
    interval_cases i <;> simp [portHdrChars, bufOf]
  have hstop : hashStopAux (bufOf env.strChars env.junk) 0 env.length = 5 :=
    hashStopAux_finds _ env.length 0 5 (by omega) (by omega) hbuf5 hlt5
  have hblank : blankChars 5 env.strChars 0 =
      List.replicate 6 32 ++ (x :: (xs' ++ (46 :: ([72, 117, 98, 95, 35] ++ ys)))) := by
    rw [hstr, hxx]
    have hassoc : portHdrChars ++ (x :: xs') ++ dotHubChars ++ ys =
        portHdrChars ++ ((x :: xs') ++ (dotHubChars ++ ys)) := by
      simp [List.append_assoc]
    rw [hassoc, blankChars_append]
    have hhdr : blankChars 5 portHdrChars 0 = List.replicate 6 32 := by decide
    rw [hhdr]
    have hrest : blankChars 5 ((x :: xs') ++ (dotHubChars ++ ys))
        (0 + portHdrChars.length) = (x :: xs') ++ (dotHubChars ++ ys) := by
      apply blankChars_past
      simp [portHdrChars]
    rw [hrest]
    simp [dotHubChars]
  have hrtl : rtlUnicodeStringToInteger
      (List.replicate 6 32 ++ (x :: (xs' ++ (46 :: ([72, 117, 98, 95, 35] ++ ys))))) 0 =
      (STATUS_SUCCESS, (x :: xs').foldl decimalAccum 0) := by
    rw [rtl_replicate_prepend]
    exact rtl_digit_run x xs' 46 ([72, 117, 98, 95, 35] ++ ys) hx.1 hx.2 hxs'
      (by decide) (by decide)
  simp only [USBPcapGetTargetDevicePort, h1, h2, h3, ne_eq, not_true_eq_false,
    if_false, Bool.true_eq_false, htake]
  rw [hstop, hblank, hrtl, hxx]

/-- Core parsing fact: when the two-phase property query succeeds but no
hash occurs anywhere in the scanned range, the whole captured text is
blanked and the integer conversion still reports success with value 0. -/
theorem port_parse_no_hash (env : PortQueryEnv)
    (h1 : env.phase1Status = STATUS_BUFFER_TOO_SMALL)
    (h2 : env.allocOk = true)
    (h3 : NT_SUCCESS env.phase2Status = true)
    (hlen : env.strChars.length < env.length)
    (hnohash : ∀ i, i < env.length → bufOf env.strChars env.junk i ≠ 35) :
    USBPcapGetTargetDevicePort env = PortOutcome.ret STATUS_SUCCESS (some 0) := by
  have hstop : hashStopAux (bufOf env.strChars env.junk) 0 env.length = env.length := by
    have := hashStopAux_no_hash (bufOf env.strChars env.junk) env.length 0
      (fun i _ hi => hnohash i (by omega))
    simpa using this
  have hlen2 : (env.strChars.takeWhile (fun c => c != 0)).length ≤ env.strChars.length :=
    takeWhileLength_le _ _
  have hblank : blankChars env.length (env.strChars.takeWhile (fun c => c != 0)) 0 =
      List.replicate (env.strChars.takeWhile (fun c => c != 0)).length 32 :=
    blankChars_all _ _ 0 (by omega)
  simp only [USBPcapGetTargetDevicePort, h1, h2, h3, ne_eq, not_true_eq_false,
    if_false, Bool.true_eq_false]
  rw [hstop, hblank, rtl_all_spaces]

/-! Concrete environments used by witnesses and counterexamples. -/

/-- A PDO query whose dispatch goes pending and completes with success,
yielding a one-element relation list. -/
def okPdoEnv : PdoQueryEnv :=
  { irpAlloc := true, callStatus := 0x103, completionStatus := 0, relations := [7] }

/-- A location-property query environment holding Port_#0003.Hub_#0001
(20 characters, 42-byte reported length). -/
def port3Env : PortQueryEnv :=
  { phase1Status := 0xC0000023, length := 42, allocOk := true, phase2Status := 0,
    strChars := [80, 111, 114, 116, 95, 35, 48, 48, 48, 51,
                 46, 72, 117, 98, 95, 35, 48, 48, 48, 49],
    junk := fun _ => 0 }

/-- A location-property query environment holding NoHashHere (10
characters, 22-byte reported length), with hash-free memory past it. -/
def noHashEnv : PortQueryEnv :=
  { phase1Status := 0xC0000023, length := 22, allocOk := true, phase2Status := 0,
    strChars := [78, 111, 72, 97, 115, 104, 72, 101, 114, 101],
    junk := fun _ => 0 }

/-- A location-property query environment holding Port_#.Hub_#1: a hash
with no digits after it. -/
def portDotHubEnv : PortQueryEnv :=
  { phase1Status := 0xC0000023, length := 28, allocOk := true, phase2Status := 0,
    strChars := [80, 111, 114, 116, 95, 35, 46, 72, 117, 98, 95, 35, 49],
    junk := fun _ => 0 }

/-- A location-property query whose zero-size probe unexpectedly reports
outright success. -/
def anomalyEnv : PortQueryEnv :=
  { phase1Status := 0, length := 0, allocOk := false, phase2Status := 0,
    strChars := [], junk := fun _ => 0 }

/-- A location-property query whose pool allocation between the two
phases fails. -/
def allocFailEnv : PortQueryEnv :=
  { phase1Status := 0xC0000023, length := 10, allocOk := false, phase2Status := 0,
    strChars := [], junk := fun _ => 0 }

/-- A connection query environment that succeeds immediately and reports
address 9 on every port. -/
def okConnEnv : ConnInfoEnv :=
  { irpAlloc := true, callStatus := 0, completionStatus := 0,
    deviceAddress := fun _ => 9, deviceIsHub := fun _ => false,
    connectionStatus := fun _ => 1 }

/-- A connection query environment whose request construction fails. -/
def failConnEnv : ConnInfoEnv :=
  { irpAlloc := false, callStatus := 0, completionStatus := 0,
    deviceAddress := fun _ => 0, deviceIsHub := fun _ => false,
    connectionStatus := fun _ => 0 }

/-- Arbitrary stack contents of the caller's connection record before the
call. -/
def junkInfo : USB_NODE_CONNECTION_INFORMATION :=
  { connectionIndex := 3, deviceAddress := 11, deviceIsHub := true,
    connectionStatus := 2 }

/-- A fully successful resolution environment: the device sits at
Port_#0003 and the hub answers with address 9. -/
def okResolveEnv : ResolveEnv :=
  { pdoEnv := okPdoEnv, portEnv := port3Env, connEnv := okConnEnv, initInfo := junkInfo }

/-- A resolution environment whose location text has no hash, so the
parser produces port 0. -/
def zeroPortResolveEnv : ResolveEnv :=
  { pdoEnv := okPdoEnv, portEnv := noHashEnv, connEnv := okConnEnv, initInfo := junkInfo }

/-- A PDO query whose request construction fails. -/
def failPdoEnv : PdoQueryEnv :=
  { irpAlloc := false, callStatus := 0, completionStatus := 0, relations := [] }

/-- A node-information query whose request construction fails. -/
def failNodeEnv : NodeInfoEnv :=
  { irpAlloc := false, callStatus := 0, completionStatus := 0,
    nodeType := UsbNodeType.usbHub, hubPorts := 0, interfaces := 0 }

/-- A node-information query against a hub with 4 ports. -/
def hubNodeEnv : NodeInfoEnv :=
  { irpAlloc := true, callStatus := 0, completionStatus := 0,
    nodeType := UsbNodeType.usbHub, hubPorts := 4, interfaces := 2 }

/-! Claim theorems. -/

/-- Claim C1: when every pipeline step succeeds, USBPcapGetDeviceUSBAddress
returns exactly the deviceAddress the hub's port-connection query reports
for the port parsed from the device PDO's location text; and when any step
(PDO acquisition, location/port parsing, connection query) fails, the call
aborts with that step's status, writing no address.  The embedding has no
loop, so no step is ever retried. -/
theorem resolveAddress_pipeline (env : ResolveEnv) :
    (NT_SUCCESS (USBPcapGetTargetDevicePdo env.pdoEnv).1 = false →
      (USBPcapGetDeviceUSBAddress env).status = (USBPcapGetTargetDevicePdo env.pdoEnv).1 ∧
      (USBPcapGetDeviceUSBAddress env).address = none) ∧
    (∀ s2 p2, NT_SUCCESS (USBPcapGetTargetDevicePdo env.pdoEnv).1 = true →
      USBPcapGetTargetDevicePort env.portEnv = PortOutcome.ret s2 p2 →
      NT_SUCCESS s2 = false →
      (USBPcapGetDeviceUSBAddress env).status = s2 ∧
      (USBPcapGetDeviceUSBAddress env).address = none) ∧
    (∀ s2 p, NT_SUCCESS (USBPcapGetTargetDevicePdo env.pdoEnv).1 = true →
      USBPcapGetTargetDevicePort env.portEnv = PortOutcome.ret s2 (some p) →
      NT_SUCCESS s2 = true →
      NT_SUCCESS (USBPcapGetNodeInformation env.connEnv p env.initInfo).1 = false →
      (USBPcapGetDeviceUSBAddress env).status =
        (USBPcapGetNodeInformation env.connEnv p env.initInfo).1 ∧
      (USBPcapGetDeviceUSBAddress env).address = none) ∧
    (∀ s2 p, NT_SUCCESS (USBPcapGetTargetDevicePdo env.pdoEnv).1 = true →
      USBPcapGetTargetDevicePort env.portEnv = PortOutcome.ret s2 (some p) →
      NT_SUCCESS s2 = true →
      NT_SUCCESS (USBPcapGetNodeInformation env.connEnv p env.initInfo).1 = true →
      (USBPcapGetDeviceUSBAddress env).status =
        (USBPcapGetNodeInformation env.connEnv p env.initInfo).1 ∧
      (USBPcapGetDeviceUSBAddress env).address = some (env.connEnv.deviceAddress p)) := by
  refine ⟨?_, ?_, ?_, ?_⟩
  · intro h
    simp [USBPcapGetDeviceUSBAddress, h]
  · intro s2 p2 hp hport hs2
    simp [USBPcapGetDeviceUSBAddress, hp, hport, hs2]
  · intro s2 p hp hport hs2 hc
    simp [USBPcapGetDeviceUSBAddress, hp, hport, hs2, hc]
  · intro s2 p hp hport hs2 hc
    have hshape := conn_success_shape env.connEnv p env.initInfo hc
    simp [USBPcapGetDeviceUSBAddress, hp, hport, hs2, hc, hshape]

/-- Witness for C1 at a concrete all-success environment. -/
theorem resolveAddress_pipeline_witness :
    (USBPcapGetDeviceUSBAddress okResolveEnv).status = 0 ∧
    (USBPcapGetDeviceUSBAddress okResolveEnv).address = some 9 := by
  have h := (resolveAddress_pipeline okResolveEnv).2.2.2 0 3 (by decide)
    (by decide) (by decide) (by decide)
  exact h

/-- Claim C2: on every returning execution (the call does not fault inside
the port query), the PDO reference is released exactly once when it was
acquired and zero times when acquisition failed, so the reference count
ends at its pre-call baseline; acquisition happens exactly when the PDO
query succeeds. -/
theorem resolveAddress_refcount (env : ResolveEnv)
    (h : (USBPcapGetDeviceUSBAddress env).crashed = false) :
    (USBPcapGetDeviceUSBAddress env).derefs =
      (if (USBPcapGetDeviceUSBAddress env).acquired = true then 1 else 0) ∧
    (USBPcapGetDeviceUSBAddress env).acquired =
      NT_SUCCESS (USBPcapGetTargetDevicePdo env.pdoEnv).1 := by
  by_cases h1 : NT_SUCCESS (USBPcapGetTargetDevicePdo env.pdoEnv).1 = false
  · simp [USBPcapGetDeviceUSBAddress, h1]
  · simp only [Bool.not_eq_false] at h1
    cases hport : USBPcapGetTargetDevicePort env.portEnv with
    | crash =>
      simp [USBPcapGetDeviceUSBAddress, h1, hport] at h
    | ret s2 p2 =>
      by_cases hs2 : NT_SUCCESS s2 = false
      · simp [USBPcapGetDeviceUSBAddress, h1, hport, hs2]
      · simp only [Bool.not_eq_false] at hs2
        by_cases h3 : NT_SUCCESS
            (USBPcapGetNodeInformation env.connEnv (p2.getD 0) env.initInfo).1 = true
        · simp [USBPcapGetDeviceUSBAddress, h1, hport, hs2, h3]
        · simp [USBPcapGetDeviceUSBAddress, h1, hport, hs2, h3]

/-- Witness for C2 at a concrete all-success environment. -/
theorem resolveAddress_refcount_witness :
    (USBPcapGetDeviceUSBAddress okResolveEnv).crashed = false ∧
    (USBPcapGetDeviceUSBAddress okResolveEnv).derefs = 1 := by
  refine ⟨by decide, ?_⟩
  have h := (resolveAddress_refcount okResolveEnv (by decide)).1
  simpa using h

/-- Counterexample to claim C3: a location text with no hash anywhere in
the scanned range does not make USBPcapGetTargetDevicePort fail; the call
returns STATUS_SUCCESS and writes port 0. -/
theorem parsePort_noHash_cex :
    (∀ i, i < 22 → bufOf noHashEnv.strChars noHashEnv.junk i ≠ 35) ∧
    NT_SUCCESS STATUS_SUCCESS = true ∧
    USBPcapGetTargetDevicePort noHashEnv = PortOutcome.ret STATUS_SUCCESS (some 0) := by
  refine ⟨by decide, by decide, by decide⟩

/-- Claim C3 as amended: for a text with no hash in the scanned range, and
likewise for the spec's no-digits example Port_#.Hub_#1, the function does
not fail: the integer conversion of the blanked text reports success with
value 0, so the call returns STATUS_SUCCESS with port 0. -/
theorem parsePort_malformed_success :
    (∀ env : PortQueryEnv, env.phase1Status = STATUS_BUFFER_TOO_SMALL →
      env.allocOk = true → NT_SUCCESS env.phase2Status = true →
      env.strChars.length < env.length →
      (∀ i, i < env.length → bufOf env.strChars env.junk i ≠ 35) →
      USBPcapGetTargetDevicePort env = PortOutcome.ret STATUS_SUCCESS (some 0)) ∧
    USBPcapGetTargetDevicePort portDotHubEnv = PortOutcome.ret STATUS_SUCCESS (some 0) := by
  exact ⟨fun env h1 h2 h3 h4 h5 => port_parse_no_hash env h1 h2 h3 h4 h5, by decide⟩

/-- Witness for the amended C3 at the concrete NoHashHere environment. -/
theorem parsePort_malformed_success_witness :
    USBPcapGetTargetDevicePort noHashEnv = PortOutcome.ret STATUS_SUCCESS (some 0) :=
  parsePort_malformed_success.1 noHashEnv (by decide) (by decide) (by decide)
    (by decide) (by decide)

/-- Claim C4: for a location text of the conventional shape
Port_#XXXX.Hub_#YYYY, the parse succeeds and returns the decimal value of
the digit run XXXX: everything up to and including the first hash is
consumed (blanked) and accumulation stops at the first non-digit, the dot. -/
theorem parsePort_conventional_shape (env : PortQueryEnv) (xs ys : List Nat)
    (hstr : env.strChars = portHdrChars ++ xs ++ dotHubChars ++ ys)
    (hxs : ∀ c ∈ xs, 48 ≤ c ∧ c ≤ 57) (hxsne : xs ≠ [])
    (hys : ∀ c ∈ ys, 48 ≤ c ∧ c ≤ 57)
    (h1 : env.phase1Status = STATUS_BUFFER_TOO_SMALL)
    (h2 : env.allocOk = true)
    (h3 : NT_SUCCESS env.phase2Status = true)
    (hlen : 6 ≤ env.length) :
    USBPcapGetTargetDevicePort env =
      PortOutcome.ret STATUS_SUCCESS (some (xs.foldl decimalAccum 0)) :=
  port_parse_wellformed env xs ys hstr hxs hxsne hys h1 h2 h3 hlen

/-- Witness for C4: ParsePort of Port_#0003.Hub_#0001 returns 3. -/
theorem parsePort_conventional_shape_witness :
    USBPcapGetTargetDevicePort port3Env = PortOutcome.ret STATUS_SUCCESS (some 3) := by
  have h := parsePort_conventional_shape port3Env [48, 48, 48, 51] [48, 48, 48, 49]
    (by decide) (by decide) (by decide) (by decide) (by decide) (by decide)
    (by decide) (by decide)
  exact h

/-- Claim C5: when the zero-size probe's outcome is anything other than
STATUS_BUFFER_TOO_SMALL, a failing status is propagated unchanged, an
unexpected outright success becomes STATUS_INVALID_DEVICE_REQUEST (itself
a non-success status), and in both cases the function returns at once,
never reaching the allocation or the second-phase query. -/
theorem parsePort_phase1_anomaly (env : PortQueryEnv)
    (h : env.phase1Status ≠ STATUS_BUFFER_TOO_SMALL) :
    (NT_SUCCESS env.phase1Status = false →
      USBPcapGetTargetDevicePort env = PortOutcome.ret env.phase1Status none) ∧
    (NT_SUCCESS env.phase1Status = true →
      USBPcapGetTargetDevicePort env = PortOutcome.ret STATUS_INVALID_DEVICE_REQUEST none) ∧
    NT_SUCCESS STATUS_INVALID_DEVICE_REQUEST = false := by
  refine ⟨?_, ?_, by decide⟩ <;> intro hs <;>
    simp [USBPcapGetTargetDevicePort, h, hs]

/-- Witness for C5: an outright-success probe yields the anomaly status
even though the allocation of this environment would fail. -/
theorem parsePort_phase1_anomaly_witness :
    USBPcapGetTargetDevicePort anomalyEnv =
      PortOutcome.ret STATUS_INVALID_DEVICE_REQUEST none :=
  (parsePort_phase1_anomaly anomalyEnv (by decide)).2.1 (by decide)

/-- Claim C6: when the node-information request was built and its
round-trip succeeds, USBPcapGetNumberOfPorts returns the hub descriptor's
port count if the node reports itself a hub and the composite parent's
interface count otherwise; a non-success round-trip status is propagated
unchanged with no count produced. -/
theorem getNumberOfPorts_node_type (env : NodeInfoEnv) (halloc : env.irpAlloc = true) :
    (NT_SUCCESS (effectiveStatus env.callStatus env.completionStatus) = true →
      USBPcapGetNumberOfPorts env =
        (effectiveStatus env.callStatus env.completionStatus,
         some (match env.nodeType with
           | UsbNodeType.usbHub => env.hubPorts
           | UsbNodeType.usbMIParent => env.interfaces))) ∧
    (NT_SUCCESS (effectiveStatus env.callStatus env.completionStatus) = false →
      USBPcapGetNumberOfPorts env =
        (effectiveStatus env.callStatus env.completionStatus, none)) := by
  constructor <;> intro hs <;> simp [USBPcapGetNumberOfPorts, halloc, hs]

/-- Witness for C6 at a hub with 4 ports. -/
theorem getNumberOfPorts_node_type_witness :
    USBPcapGetNumberOfPorts hubNodeEnv = (0, some 4) := by
  have h := (getNumberOfPorts_node_type hubNodeEnv (by decide)).1 (by decide)
  exact h

/-- Counterexample to claim C7: a failing USBPcapGetNodeInformation call
does populate part of the caller-visible record: line 240 stores the
requested port into ConnectionIndex before the request can fail, so after
a construction failure the record's index changed from 3 to 5. -/
theorem getNodeInformation_partial_write_cex :
    NT_SUCCESS (USBPcapGetNodeInformation failConnEnv 5 junkInfo).1 = false ∧
    (USBPcapGetNodeInformation failConnEnv 5 junkInfo).2.connectionIndex = 5 ∧
    junkInfo.connectionIndex = 3 := by
  refine ⟨by decide, by decide, by decide⟩

/-- Claim C7 as amended: on any non-success outcome the connection data
fields (deviceAddress, deviceIsHub, connectionStatus) are left exactly as
the caller had them; the only field written on a failure path is
ConnectionIndex, unconditionally set to the requested port before
dispatch. -/
theorem getNodeInformation_failure_frame (env : ConnInfoEnv) (port : Nat)
    (info : USB_NODE_CONNECTION_INFORMATION)
    (h : NT_SUCCESS (USBPcapGetNodeInformation env port info).1 = false) :
    (USBPcapGetNodeInformation env port info).2 =
      { info with connectionIndex := port } := by
  by_cases ha : env.irpAlloc = true
  · by_cases hs : NT_SUCCESS (effectiveStatus env.callStatus env.completionStatus) = true
    · simp [USBPcapGetNodeInformation, ha, hs] at h
    · simp only [Bool.not_eq_true] at hs
      simp [USBPcapGetNodeInformation, ha, hs]
  · simp only [Bool.not_eq_true] at ha
    simp [USBPcapGetNodeInformation, ha]

/-- Witness for the amended C7 at a concrete failing call. -/
theorem getNodeInformation_failure_frame_witness :
    (USBPcapGetNodeInformation failConnEnv 5 junkInfo).2 =
      { connectionIndex := 5, deviceAddress := 11, deviceIsHub := true,
        connectionStatus := 2 } := by
  have h := getNodeInformation_failure_frame failConnEnv 5 junkInfo (by decide)
  exact h

/-- Counterexample to claim C8: with a hash-free location text the parser
reports success with port 0, and USBPcapGetDeviceUSBAddress passes that 0
on to the hub connection query, so index 0 does reach the query. -/
theorem resolveAddress_port_zero_cex :
    (USBPcapGetDeviceUSBAddress zeroPortResolveEnv).queriedPort = some 0 := by
  decide

/-- Claim C8 as amended: the port index handed to USBPcapGetNodeInformation
is exactly the value the location parse step reported with success; that
value can be 0 (a malformed or zero-valued digit run), so the index is at
least 1 only when the parsed value is. -/
theorem resolveAddress_queried_port_from_parse (env : ResolveEnv) (p : Nat)
    (h : (USBPcapGetDeviceUSBAddress env).queriedPort = some p) :
    USBPcapGetTargetDevicePort env.portEnv = PortOutcome.ret STATUS_SUCCESS (some p) := by
  by_cases h1 : NT_SUCCESS (USBPcapGetTargetDevicePdo env.pdoEnv).1 = false
  · simp [USBPcapGetDeviceUSBAddress, h1] at h
  · simp only [Bool.not_eq_false] at h1
    cases hport : USBPcapGetTargetDevicePort env.portEnv with
    | crash =>
      simp [USBPcapGetDeviceUSBAddress, h1, hport] at h
    | ret s2 p2 =>
      by_cases hs2 : NT_SUCCESS s2 = false
      · simp [USBPcapGetDeviceUSBAddress, h1, hport, hs2] at h
      · simp only [Bool.not_eq_false] at hs2
        obtain ⟨hseq, hpeq⟩ := port_ret_success env.portEnv s2 p2 hport hs2
        by_cases h3 : NT_SUCCESS
            (USBPcapGetNodeInformation env.connEnv (p2.getD 0) env.initInfo).1 = true
        · simp [USBPcapGetDeviceUSBAddress, h1, hport, hs2, h3] at h
          rw [hpeq] at h
          simp at h
          rw [hseq, hpeq, h]
        · simp [USBPcapGetDeviceUSBAddress, h1, hport, hs2, h3] at h
          rw [hpeq] at h
          simp at h
          rw [hseq, hpeq, h]

/-- Witness for the amended C8: in the all-success environment the queried
index is the parsed port 3. -/
theorem resolveAddress_queried_port_from_parse_witness :
    USBPcapGetTargetDevicePort okResolveEnv.portEnv =
      PortOutcome.ret STATUS_SUCCESS (some 3) :=
  resolveAddress_queried_port_from_parse okResolveEnv 3 (by decide)

/-- Claim C9: in each of the three request-building operations, a failed
request-object construction makes the function return
STATUS_INSUFFICIENT_RESOURCES at once; the result does not depend on any
dispatch or completion outcome, so nothing is dispatched and no wait
happens. -/
theorem irp_alloc_failure_immediate :
    (∀ env : PdoQueryEnv, env.irpAlloc = false →
      USBPcapGetTargetDevicePdo env = (STATUS_INSUFFICIENT_RESOURCES, none)) ∧
    (∀ env : NodeInfoEnv, env.irpAlloc = false →
      USBPcapGetNumberOfPorts env = (STATUS_INSUFFICIENT_RESOURCES, none)) ∧
    (∀ (env : ConnInfoEnv) (port : Nat) (info : USB_NODE_CONNECTION_INFORMATION),
      env.irpAlloc = false →
      USBPcapGetNodeInformation env port info =
        (STATUS_INSUFFICIENT_RESOURCES, { info with connectionIndex := port })) := by
  refine ⟨?_, ?_, ?_⟩
  · intro env h
    simp [USBPcapGetTargetDevicePdo, h]
  · intro env h
    simp [USBPcapGetNumberOfPorts, h]
  · intro env port info h
    simp [USBPcapGetNodeInformation, h]

/-- Witness for C9 at concrete construction-failure environments. -/
theorem irp_alloc_failure_immediate_witness :
    USBPcapGetTargetDevicePdo failPdoEnv = (STATUS_INSUFFICIENT_RESOURCES, none) ∧
    USBPcapGetNumberOfPorts failNodeEnv = (STATUS_INSUFFICIENT_RESOURCES, none) ∧
    USBPcapGetNodeInformation failConnEnv 5 junkInfo =
      (STATUS_INSUFFICIENT_RESOURCES, { junkInfo with connectionIndex := 5 }) :=
  ⟨irp_alloc_failure_immediate.1 failPdoEnv (by decide),
   irp_alloc_failure_immediate.2.1 failNodeEnv (by decide),
   irp_alloc_failure_immediate.2.2 failConnEnv 5 junkInfo (by decide)⟩

/-- Claim C10: after the probe reported STATUS_BUFFER_TOO_SMALL, the
source never checks ExAllocatePoolWithTag's result; when that allocation
fails, the absent buffer is passed to the second property query and then
freed or indexed, so the execution faults instead of returning a status,
whatever the second query would report. -/
theorem parsePort_alloc_failure_crash (env : PortQueryEnv)
    (h1 : env.phase1Status = STATUS_BUFFER_TOO_SMALL)
    (h2 : env.allocOk = false) :
    USBPcapGetTargetDevicePort env = PortOutcome.crash := by
  simp [USBPcapGetTargetDevicePort, h1, h2]

/-- Witness for C10 at a concrete allocation-failure environment. -/
theorem parsePort_alloc_failure_crash_witness :
    USBPcapGetTargetDevicePort allocFailEnv = PortOutcome.crash :=
  parsePort_alloc_failure_crash allocFailEnv (by decide) (by decide)

end USBPcap
